import Mathlib

/-!
Verification of the quiklens editing core: the crop-composition geometry
(`applyCrop` in `lib/store.ts`), the zoom/pan viewport transform
(`lib/hooks/useImageZoomPan.ts`), the undo/redo history model and the
processing coordinator of the zustand store, the `debounce` helper of
`lib/utils.ts`, and the dimension behaviour of the processing route
(`app/api/image/process/route.ts`).

JavaScript numbers are embedded as rationals (`ℚ`); `Math.round` is
embedded as `jsRound` (floor of x + 1/2, the ECMAScript rounding rule).
All arithmetic appearing in the verified claims is exact on the inputs
involved, so the rational embedding agrees with the source.
-/

/-- Constants from `lib/store.ts`. -/
def MAX_HISTORY_LENGTH : Nat := 20

/-- The `MIN_CROP_SIZE` from `lib/store.ts`, as a rational for geometry math. -/
def MIN_CROP_SIZE : ℚ := 20

/-- The `DEBOUNCE_DELAY` (milliseconds) from `lib/store.ts`. -/
def DEBOUNCE_DELAY : ℚ := 500

/-- The `Math.round`: round half towards positive infinity, i.e. `⌊q + 1/2⌋`
(stated via the executable `Rat.floor`; see `jsRound_def`). -/
def jsRound (q : ℚ) : ℤ := (q + 1/2).floor

/-- Pixel size of an image instance (`{width, height}`). -/
structure Dimensions where
  width : ℚ
  height : ℚ

deriving DecidableEq, Repr

/-- The `CropRegion` from `lib/types.ts`. -/
structure CropRegion where
  left : ℚ
  top : ℚ
  width : ℚ
  height : ℚ

deriving DecidableEq, Repr

/-- The `Partial<CropRegion>`: every field optional, read with `?? default`. -/
structure PartialCropRegion where
  left : Option ℚ
  top : Option ℚ
  width : Option ℚ
  height : Option ℚ

deriving DecidableEq, Repr

/-- The `validatedUiCrop` computation at the start of `applyCrop`
(`lib/store.ts`): round and clamp the in-progress UI crop rectangle against
the displayed base image. -/
def computeValidatedUiCrop (ui : PartialCropRegion) (base : Dimensions) : CropRegion :=
  let l : ℚ := max 0 (jsRound (ui.left.getD 0) : ℚ)
  let t : ℚ := max 0 (jsRound (ui.top.getD 0) : ℚ)
  let w : ℚ := max MIN_CROP_SIZE (jsRound (ui.width.getD base.width) : ℚ)
  let h : ℚ := max MIN_CROP_SIZE (jsRound (ui.height.getD base.height) : ℚ)
  let w := min w (base.width - l)
  let h := min h (base.height - t)
  ⟨l, t, w, h⟩

/-- Error message set by `applyCrop` when the validated UI rectangle is
degenerate. -/
def uiCropTooSmallMsg : String := "Crop dimensions selected on the preview are too small."

/-- Error message set by `applyCrop` when the final rectangle is degenerate. -/
def finalCropTooSmallMsg : String :=
  "Final calculated crop dimensions for the original image are too small."

/-- Error message set by `applyCrop` when required image data is missing. -/
def cropMissingDataMsg : String :=
  "Cannot apply crop: required image data for scaling/processing is missing."

/-- The crop-composition core of `applyCrop` (`lib/store.ts`): validate the
UI rectangle, convert it into true-original coordinates (scale by the
committed crop when one exists, then translate; else scale by
trueOriginal/base), clamp against the true original, and fail with the
store's error message when a size check trips. -/
def computeFinalCrop (ui : PartialCropRegion) (base orig : Dimensions)
    (applied : Option CropRegion) : Except String CropRegion :=
  let v := computeValidatedUiCrop ui base
  if v.width < MIN_CROP_SIZE ∨ v.height < MIN_CROP_SIZE then
    .error uiCropTooSmallMsg
  else
    let f : CropRegion :=
      match applied with
      | some c =>
        let scaleToFirstCropX := c.width / base.width
        let scaleToFirstCropY := c.height / base.height
        ⟨(jsRound (c.left + v.left * scaleToFirstCropX) : ℚ),
         (jsRound (c.top + v.top * scaleToFirstCropY) : ℚ),
         (jsRound (v.width * scaleToFirstCropX) : ℚ),
         (jsRound (v.height * scaleToFirstCropY) : ℚ)⟩
      | none =>
        let scaleToOriginalX := orig.width / base.width
        let scaleToOriginalY := orig.height / base.height
        ⟨(jsRound (v.left * scaleToOriginalX) : ℚ),
         (jsRound (v.top * scaleToOriginalY) : ℚ),
         (jsRound (v.width * scaleToOriginalX) : ℚ),
         (jsRound (v.height * scaleToOriginalY) : ℚ)⟩
    let l := max 0 f.left
    let t := max 0 f.top
    let w := max MIN_CROP_SIZE (min f.width (orig.width - l))
    let h := max MIN_CROP_SIZE (min f.height (orig.height - t))
    if w < MIN_CROP_SIZE ∨ h < MIN_CROP_SIZE then
      .error finalCropTooSmallMsg
    else
      .ok ⟨l, t, w, h⟩

deriving instance DecidableEq for Except

/-! ## Viewport controller (`lib/hooks/useImageZoomPan.ts`) -/

/-- The `MIN_ZOOM` from `useImageZoomPan.ts`. -/
def MIN_ZOOM : ℚ := 1/10

/-- The `MAX_ZOOM` from `useImageZoomPan.ts`. -/
def MAX_ZOOM : ℚ := 10

/-- The `ZOOM_SENSITIVITY` from `useImageZoomPan.ts`. -/
def ZOOM_SENSITIVITY : ℚ := 1/1000

/-- A point in canvas coordinates (`CanvasCoords`). -/
structure Coords where
  x : ℚ
  y : ℚ

deriving DecidableEq, Repr

/-- The `canvasToImageCoords` from `useImageZoomPan.ts`:
`(canvas − panOffset) / zoomLevel` per axis. -/
def canvasToImageCoords (panOffset : Coords) (zoomLevel : ℚ) (canvasX canvasY : ℚ) : Coords :=
  ⟨(canvasX - panOffset.x) / zoomLevel, (canvasY - panOffset.y) / zoomLevel⟩

/-- The `handleWheel` from `useImageZoomPan.ts`: returns the new zoom level and
pan offset for a wheel event with vertical delta `deltaY` at canvas point
`mousePos`. -/
def handleWheel (zoomLevel : ℚ) (panOffset : Coords) (mousePos : Coords) (deltaY : ℚ) :
    ℚ × Coords :=
  let imageMousePosBeforeZoom := canvasToImageCoords panOffset zoomLevel mousePos.x mousePos.y
  let newZoomLevel := zoomLevel * (1 - deltaY * ZOOM_SENSITIVITY)
  let newZoomLevel := max MIN_ZOOM (min MAX_ZOOM newZoomLevel)
  (newZoomLevel,
   ⟨mousePos.x - imageMousePosBeforeZoom.x * newZoomLevel,
    mousePos.y - imageMousePosBeforeZoom.y * newZoomLevel⟩)

/-! ## Editor store (`lib/store.ts`) -/

/-- The seven slider values. In the store snapshots every field is present. -/
structure SliderValues where
  brightness : ℚ
  exposure : ℚ
  temperature : ℚ
  contrast : ℚ
  saturation : ℚ
  tint : ℚ
  sharpness : ℚ

deriving DecidableEq, Repr

/-- The `defaultSliders` from `lib/store.ts`. -/
def defaultSliders : SliderValues := ⟨1, 0, 0, 0, 1, 0, 0⟩

/-- The parameters sent to the processing service (`ImageProcessingParams`
without the history-only underscore fields): slider values, the crop in
true-original space, and the optional resize target. -/
structure EditParams where
  sliders : SliderValues
  crop : Option CropRegion
  rszWidth : Option ℚ
  rszHeight : Option ℚ

deriving DecidableEq, Repr

/-- A history entry: `ImageProcessingParams` plus
`_sourceImageDimensionsForNextStep` and `_appliedCropForThisState`. -/
structure HistoryEntry where
  params : EditParams
  srcDims : Option Dimensions
  appliedCropForThisState : Option CropRegion

deriving DecidableEq, Repr

/-- The `ImageEffectType` from `lib/types.ts`. -/
inductive ImageEffectType where
  | applyAll
  | grayscale
  | resize
  | brightness
  | exposure
  | temperature
  | contrast
  | saturation
  | tint
  | sharpness
  | crop

deriving DecidableEq, Repr

/-- The slice of the zustand `EditorState` that the verified claims touch. -/
structure EditorState where
  selectedFile : Bool
  currentBaseImageDimensions : Option Dimensions
  trueOriginalImageDimensions : Option Dimensions
  isLoading : Bool
  error : Option String
  sliders : SliderValues
  isCropping : Bool
  appliedCropRegionToOriginal : Option CropRegion
  uiCropRegion : Option PartialCropRegion
  history : List HistoryEntry
  currentHistoryIndex : ℤ

deriving DecidableEq, Repr

/-- The `_getCurrentUserParamsSnapshot` from `lib/store.ts`: current sliders
plus `crop: state.appliedCropRegionToOriginal || undefined`. -/
def paramsSnapshot (st : EditorState) : EditParams :=
  ⟨st.sliders, st.appliedCropRegionToOriginal, none, none⟩

/-- The history entry built inside `_addProcessedStateToHistory`: the
processed params, the state's `currentBaseImageDimensions` as
`_sourceImageDimensionsForNextStep`, and `processedParams.crop || null`
as `_appliedCropForThisState`. -/
def mkHistoryEntry (p : EditParams) (st : EditorState) : HistoryEntry :=
  ⟨p, st.currentBaseImageDimensions, p.crop⟩

/-- The `_addProcessedStateToHistory` from `lib/store.ts`: truncate the history
to `[0..currentHistoryIndex]`, append the new entry, evict the oldest
entries beyond `MAX_HISTORY_LENGTH`, and point the index at the new last
entry. -/
def pushHistory (p : EditParams) (st : EditorState) : EditorState :=
  let newHistoryBase := st.history.take (st.currentHistoryIndex + 1).toNat
  let updatedHistory := newHistoryBase ++ [mkHistoryEntry p st]
  let finalHistory :=
    if MAX_HISTORY_LENGTH < updatedHistory.length then
      updatedHistory.drop (updatedHistory.length - MAX_HISTORY_LENGTH)
    else updatedHistory
  { st with history := finalHistory, currentHistoryIndex := (finalHistory.length : ℤ) - 1 }

/-- The `_applyStateFromHistory` from `lib/store.ts`: restore sliders and the
committed crop from a history entry's params, force-exit crop mode. -/
def applyStateFromHistory (p : EditParams) (st : EditorState) : EditorState :=
  { st with
      sliders := p.sliders
      appliedCropRegionToOriginal := p.crop
      isCropping := false
      uiCropRegion := none }

/-- One request to `/api/image/process` as issued by
`_executeApiProcessing`: the (cleaned) params, the effect kind, and the
`shouldAddToHistory` flag. -/
structure ApiRequest where
  params : EditParams
  effect : ImageEffectType
  addToHistory : Bool

deriving DecidableEq, Repr

/-- Completion of the network round-trip: either the response was ok or the
fetch failed / returned a non-success status with a message. -/
inductive Outcome where
  | success
  | failure (msg : String)

deriving DecidableEq, Repr

/-- The `newBaseDimensions` computation inside `_executeApiProcessing`
(starting from `trueOriginalImageDimensions` and conditionally replaced):
the fallback chain used when the request's crop is absent or degenerate. -/
def fallbackDims (p : EditParams) (effect : ImageEffectType) (st : EditorState) :
    Option Dimensions :=
  match st.appliedCropRegionToOriginal with
  | some ac =>
    if effect = .applyAll ∧ p.crop = none then some ⟨ac.width, ac.height⟩
    else st.trueOriginalImageDimensions
  | none => st.trueOriginalImageDimensions

/-- The full `newBaseDimensions` computation inside `_executeApiProcessing`. -/
def newBaseDimsAfter (p : EditParams) (effect : ImageEffectType) (st : EditorState) :
    Option Dimensions :=
  match p.crop with
  | some c =>
    if 0 < c.width ∧ 0 < c.height then some ⟨c.width, c.height⟩
    else fallbackDims p effect st
  | none => fallbackDims p effect st

/-- The `_executeApiProcessing` from `lib/store.ts`, as a state transformer
parameterised by the round-trip `Outcome`: bail out when no file is
selected; on failure record the error message and clear the loading flag;
on success install the new base-image dimensions and, when
`shouldAddToHistory` is set, push the params onto the history. -/
def executeApi (p : EditParams) (effect : ImageEffectType) (addToHistory : Bool)
    (o : Outcome) (st : EditorState) : EditorState :=
  if st.selectedFile = false then { st with isLoading := false }
  else
    let st := { st with isLoading := true, error := none }
    match o with
    | .failure msg => { st with error := some msg, isLoading := false }
    | .success =>
      let st := { st with
                    currentBaseImageDimensions := newBaseDimsAfter p effect st,
                    isLoading := false }
      if addToHistory then pushHistory p st else st

/-- Placeholder entry used to totalise the TS `history[newIndex]` access;
every theorem below constrains the index to be in range, so this default
is never read there. -/
def defaultHistoryEntry : HistoryEntry := ⟨⟨defaultSliders, none, none, none⟩, none, none⟩

/-- The `undo` from `lib/store.ts` (synchronous part): when
`currentHistoryIndex > 0`, restore the previous entry and return the
replay request it issues (`'applyAll'` with `shouldAddToHistory = false`). -/
def undo (st : EditorState) : EditorState × Option ApiRequest :=
  if 0 < st.currentHistoryIndex then
    let newIndex := st.currentHistoryIndex - 1
    let paramsToRestore := st.history.getD newIndex.toNat defaultHistoryEntry
    let st' := { applyStateFromHistory paramsToRestore.params st with
                   currentHistoryIndex := newIndex }
    (st', some ⟨paramsToRestore.params, .applyAll, false⟩)
  else (st, none)

/-- The `redo` from `lib/store.ts` (synchronous part). -/
def redo (st : EditorState) : EditorState × Option ApiRequest :=
  if st.currentHistoryIndex < (st.history.length : ℤ) - 1 then
    let newIndex := st.currentHistoryIndex + 1
    let paramsToRestore := st.history.getD newIndex.toNat defaultHistoryEntry
    let st' := { applyStateFromHistory paramsToRestore.params st with
                   currentHistoryIndex := newIndex }
    (st', some ⟨paramsToRestore.params, .applyAll, false⟩)
  else (st, none)

/-- The `undo` together with the completion of the replay request it issues. -/
def undoRun (o : Outcome) (st : EditorState) : EditorState :=
  match undo st with
  | (st', some r) => executeApi r.params r.effect r.addToHistory o st'
  | (st', none) => st'

/-- The `redo` together with the completion of the replay request it issues. -/
def redoRun (o : Outcome) (st : EditorState) : EditorState :=
  match redo st with
  | (st', some r) => executeApi r.params r.effect r.addToHistory o st'
  | (st', none) => st'

/-- The body of `_debouncedProcessSliderChanges` from `lib/store.ts` as the
request it issues: suppressed while `isCropping` is true or no file is
loaded, otherwise one `'applyAll'` request with the current snapshot and
`shouldAddToHistory = true`. -/
def sliderSettleFire (st : EditorState) : Option ApiRequest :=
  if st.isCropping ∨ st.selectedFile = false then none
  else some ⟨paramsSnapshot st, .applyAll, true⟩

/-- One debounced slider settle together with the completion of the request
it issues. -/
def sliderSettleRun (o : Outcome) (st : EditorState) : EditorState :=
  match sliderSettleFire st with
  | some r => executeApi r.params r.effect r.addToHistory o st
  | none => st

/-- Override object passed to `applyNamedEffect`
(`Partial<Omit<ImageProcessingParams, 'crop'>>`): may replace any slider or
resize field, never the crop. -/
structure EffectOverrides where
  brightness : Option ℚ
  exposure : Option ℚ
  temperature : Option ℚ
  contrast : Option ℚ
  saturation : Option ℚ
  tint : Option ℚ
  sharpness : Option ℚ
  rszWidth : Option ℚ
  rszHeight : Option ℚ

deriving DecidableEq, Repr

/-- The object spread `{...baseParams, ...params}` in `applyNamedEffect`:
fields present in the override replace the snapshot's; `crop` cannot be
overridden. -/
def mergeOverrides (base : EditParams) (ov : EffectOverrides) : EditParams :=
  { sliders :=
      ⟨ov.brightness.getD base.sliders.brightness,
       ov.exposure.getD base.sliders.exposure,
       ov.temperature.getD base.sliders.temperature,
       ov.contrast.getD base.sliders.contrast,
       ov.saturation.getD base.sliders.saturation,
       ov.tint.getD base.sliders.tint,
       ov.sharpness.getD base.sliders.sharpness⟩
    crop := base.crop
    rszWidth := match ov.rszWidth with | some w => some w | none => base.rszWidth
    rszHeight := match ov.rszHeight with | some h => some h | none => base.rszHeight }

/-- The request built by `applyNamedEffect` from `lib/store.ts`: the current
snapshot, optionally merged with overrides, sent with the named effect and
`shouldAddToHistory = true`. -/
def applyNamedEffectRequest (effect : ImageEffectType) (ov : Option EffectOverrides)
    (st : EditorState) : ApiRequest :=
  let baseParams := paramsSnapshot st
  let finalParams := match ov with | some v => mergeOverrides baseParams v | none => baseParams
  ⟨finalParams, effect, true⟩

/-- The `applyNamedEffect` together with the completion of its request. -/
def applyNamedEffectRun (effect : ImageEffectType) (ov : Option EffectOverrides)
    (o : Outcome) (st : EditorState) : EditorState :=
  let r := applyNamedEffectRequest effect ov st
  executeApi r.params r.effect r.addToHistory o st

/-- The `applyCrop` from `lib/store.ts`, parameterised by the round-trip
outcome; returns the final state and the request sent (if any). Validation
failures set the store's error message and send nothing; on a valid crop
the store first commits `appliedCropRegionToOriginal`, then awaits the
`'crop'` request, then exits crop mode unconditionally. -/
def applyCropRun (o : Outcome) (st : EditorState) : EditorState × Option ApiRequest :=
  match st.uiCropRegion, st.currentBaseImageDimensions, st.trueOriginalImageDimensions with
  | some ui, some base, some orig =>
    if st.selectedFile = false then
      ({ st with error := some cropMissingDataMsg }, none)
    else
      match computeFinalCrop ui base orig st.appliedCropRegionToOriginal with
      | .error msg => ({ st with error := some msg }, none)
      | .ok finalCropForApi =>
        let paramsForProcessing : EditParams :=
          { paramsSnapshot st with crop := some finalCropForApi }
        let st1 := { st with appliedCropRegionToOriginal := some finalCropForApi }
        let st2 := executeApi paramsForProcessing .crop true o st1
        ({ st2 with isCropping := false, uiCropRegion := none },
         some ⟨paramsForProcessing, .crop, true⟩)
  | _, _, _ =>
    ({ st with error := some cropMissingDataMsg }, none)

/-! ## The `debounce` helper (`lib/utils.ts`) as a timed machine

`debounce(func, waitFor)` owns one pending timer: each call clears any
pending timer and schedules `func` at `now + waitFor`; when the scheduled
time is reached the timer fires once and `func` runs. -/

/-- State of one debounced function: the scheduled fire time, if a timer is
pending, and how often `func` has run. -/
structure DebounceState where
  pendingAt : Option ℚ
  fireCount : Nat

deriving DecidableEq, Repr

/-- A call of the debounced function at time `t`: `clearTimeout` of any
pending timer followed by `setTimeout(..., waitFor)`. -/
def debounceCall (waitFor t : ℚ) (s : DebounceState) : DebounceState :=
  { s with pendingAt := some (t + waitFor) }

/-- Let wall-clock time advance to `t`: a pending timer due at or before
`t` fires (running `func` once) and is cleared. -/
def debounceAdvance (t : ℚ) (s : DebounceState) : DebounceState :=
  match s.pendingAt with
  | some due => if due ≤ t then { pendingAt := none, fireCount := s.fireCount + 1 } else s
  | none => s

/-- Process a list of call times in order: advance the clock to each call
time, then perform the call. -/
def debounceRun (waitFor : ℚ) : List ℚ → DebounceState → DebounceState
  | [], s => s
  | t :: rest, s => debounceRun waitFor rest (debounceCall waitFor t (debounceAdvance t s))

/-- The time of the last of a nonempty series of calls (head `t`, tail
`rest`). -/
def lastCallTime (t : ℚ) (rest : List ℚ) : ℚ := rest.foldl (fun _ u => u) t

/-! ## Processing route (`app/api/image/process/route.ts`) -/

/-- The crop gate of the route: the crop stage runs only for effects
`'crop'` and `'applyAll'`, and only when the crop rectangle passes the
basic bounds check against the incoming image's dimensions. -/
def routeCropTaken (effect : ImageEffectType) (p : EditParams) (dims : Dimensions) : Prop :=
  (effect = .crop ∨ effect = .applyAll) ∧
    match p.crop with
    | some c =>
      0 < c.width ∧ 0 < c.height ∧ 0 ≤ c.left ∧ 0 ≤ c.top ∧
        c.left + c.width ≤ dims.width ∧ c.top + c.height ≤ dims.height
    | none => False

instance (effect : ImageEffectType) (p : EditParams) (dims : Dimensions) :
    Decidable (routeCropTaken effect p dims) := by
  unfold routeCropTaken
  exact match p.crop with
  | some c => by dsimp; infer_instance
  | none => by dsimp; infer_instance

/-- The pixel dimensions of the route's response image: `sharp.extract`
yields the crop rectangle's size when the crop stage ran; the tonal
adjustments and `grayscale` preserve dimensions; `resize` follows sharp's
documented behaviour (exact when both sides are given, aspect-preserving
with rounding when one side is given). -/
def routeOutputDims (effect : ImageEffectType) (p : EditParams) (dims : Dimensions) :
    Dimensions :=
  let afterCrop :=
    if routeCropTaken effect p dims then
      match p.crop with
      | some c => (⟨c.width, c.height⟩ : Dimensions)
      | none => dims
    else dims
  match effect with
  | .resize =>
    match p.rszWidth, p.rszHeight with
    | some w, some h => ⟨w, h⟩
    | some w, none => ⟨w, (jsRound (dims.height * w / dims.width) : ℚ)⟩
    | none, some h => ⟨(jsRound (dims.width * h / dims.height) : ℚ), h⟩
    | none, none => afterCrop
  | _ => afterCrop

/-! ## History steps for the stack invariant -/

/-- One history-affecting operation: a push (a committed edit reaching
`_addProcessedStateToHistory`), or an `undo`/`redo` with the completion of
its replay request. -/
inductive HistStep where
  | push (p : EditParams)
  | undoStep (o : Outcome)
  | redoStep (o : Outcome)

deriving Repr

/-- Run one history step. -/
def runHistStep : HistStep → EditorState → EditorState
  | .push p, st => pushHistory p st
  | .undoStep o, st => undoRun o st
  | .redoStep o, st => redoRun o st

/-- Run a sequence of history steps from left to right. -/
def runHistSteps : List HistStep → EditorState → EditorState
  | [], st => st
  | s :: rest, st => runHistSteps rest (runHistStep s st)

/-- The history-stack well-formedness invariant of the store: the stack
never exceeds `MAX_HISTORY_LENGTH`; the index is `-1` exactly in the
pristine empty-stack state, and otherwise points inside the stack. -/
def HistWf (st : EditorState) : Prop :=
  st.history.length ≤ MAX_HISTORY_LENGTH ∧
    (st.history.length = 0 → st.currentHistoryIndex = -1) ∧
    (0 < st.history.length →
      0 ≤ st.currentHistoryIndex ∧ st.currentHistoryIndex < (st.history.length : ℤ))

instance (st : EditorState) : Decidable (HistWf st) := by
  unfold HistWf; infer_instance

/-- Concrete state used to witness the push/undo/redo round-trip. -/
def rtState : EditorState :=
  { selectedFile := true
    currentBaseImageDimensions := some ⟨100, 50⟩
    trueOriginalImageDimensions := some ⟨200, 100⟩
    isLoading := false
    error := none
    sliders := defaultSliders
    isCropping := false
    appliedCropRegionToOriginal := none
    uiCropRegion := none
    history := [defaultHistoryEntry]
    currentHistoryIndex := 0 }

/-- Concrete params used to witness the push/undo/redo round-trip. -/
def rtParams : EditParams := ⟨⟨2, 0, 0, 0, 1, 0, 0⟩, some ⟨10, 10, 50, 50⟩, none, none⟩

/-- Concrete state used to witness the history invariant. -/
def invState : EditorState :=
  { selectedFile := true
    currentBaseImageDimensions := some ⟨100, 50⟩
    trueOriginalImageDimensions := some ⟨200, 100⟩
    isLoading := false
    error := none
    sliders := defaultSliders
    isCropping := false
    appliedCropRegionToOriginal := none
    uiCropRegion := none
    history := [defaultHistoryEntry]
    currentHistoryIndex := 0 }

/-- Concrete step sequence used to witness the history invariant. -/
def invSteps : List HistStep :=
  [.push ⟨⟨2, 0, 0, 0, 1, 0, 0⟩, none, none, none⟩,
   .push ⟨⟨3, 1, 0, 0, 1, 0, 0⟩, none, none, none⟩,
   .undoStep .success,
   .push ⟨⟨1, 0, 5, 0, 1, 0, 0⟩, none, none, none⟩,
   .redoStep (.failure ("network error")),
   .undoStep .success]

/-- Concrete mid-crop state used to witness the crop-mode exit. -/
def midCropState : EditorState :=
  { selectedFile := true
    currentBaseImageDimensions := some ⟨100, 50⟩
    trueOriginalImageDimensions := some ⟨200, 100⟩
    isLoading := false
    error := none
    sliders := defaultSliders
    isCropping := true
    appliedCropRegionToOriginal := none
    uiCropRegion := some ⟨some 0, some 0, some 40, some 40⟩
    history := [defaultHistoryEntry, defaultHistoryEntry, defaultHistoryEntry]
    currentHistoryIndex := 1 }

/-- Concrete loaded, non-cropping state used to witness the debounce
behaviour. -/
def settleState : EditorState :=
  { selectedFile := true
    currentBaseImageDimensions := some ⟨100, 50⟩
    trueOriginalImageDimensions := some ⟨200, 100⟩
    isLoading := false
    error := none
    sliders := ⟨2, 1, 0, 0, 1, 0, 0⟩
    isCropping := false
    appliedCropRegionToOriginal := none
    uiCropRegion := none
    history := [defaultHistoryEntry]
    currentHistoryIndex := 0 }

/-- Concrete mid-crop session (no prior crop, preview 1000×500 of a
2000×1000 original, UI selection (100, 50, 400, 200)) used for the failed
commit analysis. -/
def c7State : EditorState :=
  { selectedFile := true
    currentBaseImageDimensions := some ⟨1000, 500⟩
    trueOriginalImageDimensions := some ⟨2000, 1000⟩
    isLoading := false
    error := none
    sliders := defaultSliders
    isCropping := true
    appliedCropRegionToOriginal := none
    uiCropRegion := some ⟨some 100, some 50, some 400, some 200⟩
    history := [defaultHistoryEntry]
    currentHistoryIndex := 0 }

/-- Concrete mid-crop session whose UI selection collapses below
`MIN_CROP_SIZE` once clamped to the base image (left 990 on a 1000-wide
base leaves only 10 px of width). -/
def degenState : EditorState :=
  { selectedFile := true
    currentBaseImageDimensions := some ⟨1000, 500⟩
    trueOriginalImageDimensions := some ⟨2000, 1000⟩
    isLoading := false
    error := none
    sliders := defaultSliders
    isCropping := true
    appliedCropRegionToOriginal := none
    uiCropRegion := some ⟨some 990, some 0, some 100, some 100⟩
    history := [defaultHistoryEntry]
    currentHistoryIndex := 0 }

/-- Concrete session with a committed crop (100, 50, 800, 400) on a
2000×1000 original, used for the named-effect/crop analysis. -/
def c9State : EditorState :=
  { selectedFile := true
    currentBaseImageDimensions := some ⟨800, 400⟩
    trueOriginalImageDimensions := some ⟨2000, 1000⟩
    isLoading := false
    error := none
    sliders := defaultSliders
    isCropping := false
    appliedCropRegionToOriginal := some ⟨100, 50, 800, 400⟩
    uiCropRegion := none
    history := [defaultHistoryEntry]
    currentHistoryIndex := 0 }

/-! ## Theorems -/

theorem jsRound_def (q : ℚ) : jsRound q = ⌊q + 1/2⌋ := by
  simp [jsRound, Rat.floor_def, Rat.floor_def']

/-! ## Helper lemmas -/

theorem jsRound_intCast (n : ℤ) : jsRound (n : ℚ) = n := by
  rw [jsRound_def, Int.floor_int_add]
  norm_num

theorem jsRound_nonneg {q : ℚ} (h : 0 ≤ q) : 0 ≤ jsRound q := by
  rw [jsRound_def]
  exact Int.le_floor.mpr (by push_cast; linarith)

/-- An integer-valued UI rectangle that already satisfies the validation
bounds passes `validatedUiCrop` unchanged. -/
theorem computeValidatedUiCrop_int (li ti wi hi : ℤ) (base : Dimensions)
    (hl : 0 ≤ li) (ht : 0 ≤ ti) (hw : (20 : ℤ) ≤ wi) (hh : (20 : ℤ) ≤ hi)
    (hwb : (li : ℚ) + wi ≤ base.width) (hhb : (ti : ℚ) + hi ≤ base.height) :
    computeValidatedUiCrop ⟨some (li : ℚ), some (ti : ℚ), some (wi : ℚ), some (hi : ℚ)⟩ base
      = ⟨(li : ℚ), (ti : ℚ), (wi : ℚ), (hi : ℚ)⟩ := by
  have hl' : (0 : ℚ) ≤ (li : ℚ) := by exact_mod_cast hl
  have ht' : (0 : ℚ) ≤ (ti : ℚ) := by exact_mod_cast ht
  have hw' : (20 : ℚ) ≤ (wi : ℚ) := by exact_mod_cast hw
  have hh' : (20 : ℚ) ≤ (hi : ℚ) := by exact_mod_cast hh
  unfold computeValidatedUiCrop
  simp only [Option.getD_some, jsRound_intCast, MIN_CROP_SIZE]
  rw [max_eq_right hl', max_eq_right ht', max_eq_right hw', max_eq_right hh',
    min_eq_left (by linarith), min_eq_left (by linarith)]

/-- C1: When no crop is currently committed, committing a crop converts the
UI crop rectangle from displayed-base-image coordinates to true-original
coordinates by scaling every coordinate per axis with
`scale = trueOriginalDimensions / baseImageDimensions` (each scaled
coordinate rounded to the nearest pixel): for any integer-valued UI
rectangle that is valid in the displayed base and whose scaled image stays
within the true original and above `MIN_CROP_SIZE`, `applyCrop`'s final
rectangle is exactly the per-axis scaled rectangle. The spec's concrete
witness of this claim is `crop_commit_scales_when_uncommitted_witness`. -/
theorem crop_commit_scales_when_uncommitted (li ti wi hi : ℤ) (base orig : Dimensions)
    (hl : 0 ≤ li) (ht : 0 ≤ ti) (hw : (20 : ℤ) ≤ wi) (hh : (20 : ℤ) ≤ hi)
    (hwb : (li : ℚ) + wi ≤ base.width) (hhb : (ti : ℚ) + hi ≤ base.height)
    (hbw : 0 < base.width) (hbh : 0 < base.height)
    (how : 0 ≤ orig.width) (hoh : 0 ≤ orig.height)
    (hW : (20 : ℚ) ≤ (jsRound ((wi : ℚ) * (orig.width / base.width)) : ℚ))
    (hH : (20 : ℚ) ≤ (jsRound ((hi : ℚ) * (orig.height / base.height)) : ℚ))
    (hWb : (jsRound ((wi : ℚ) * (orig.width / base.width)) : ℚ)
             ≤ orig.width - (jsRound ((li : ℚ) * (orig.width / base.width)) : ℚ))
    (hHb : (jsRound ((hi : ℚ) * (orig.height / base.height)) : ℚ)
             ≤ orig.height - (jsRound ((ti : ℚ) * (orig.height / base.height)) : ℚ)) :
    computeFinalCrop ⟨some (li : ℚ), some (ti : ℚ), some (wi : ℚ), some (hi : ℚ)⟩ base orig none
      = .ok ⟨(jsRound ((li : ℚ) * (orig.width / base.width)) : ℚ),
             (jsRound ((ti : ℚ) * (orig.height / base.height)) : ℚ),
             (jsRound ((wi : ℚ) * (orig.width / base.width)) : ℚ),
             (jsRound ((hi : ℚ) * (orig.height / base.height)) : ℚ)⟩ := by
  have hw' : (20 : ℚ) ≤ (wi : ℚ) := by exact_mod_cast hw
  have hh' : (20 : ℚ) ≤ (hi : ℚ) := by exact_mod_cast hh
  have hsx : (0 : ℚ) ≤ orig.width / base.width := by positivity
  have hsy : (0 : ℚ) ≤ orig.height / base.height := by positivity
  have hl' : (0 : ℚ) ≤ (li : ℚ) := by exact_mod_cast hl
  have ht' : (0 : ℚ) ≤ (ti : ℚ) := by exact_mod_cast ht
  have hL : (0 : ℚ) ≤ (jsRound ((li : ℚ) * (orig.width / base.width)) : ℚ) := by
    exact_mod_cast jsRound_nonneg (mul_nonneg hl' hsx)
  have hT : (0 : ℚ) ≤ (jsRound ((ti : ℚ) * (orig.height / base.height)) : ℚ) := by
    exact_mod_cast jsRound_nonneg (mul_nonneg ht' hsy)
  unfold computeFinalCrop
  rw [computeValidatedUiCrop_int li ti wi hi base hl ht hw hh hwb hhb]
  simp only [MIN_CROP_SIZE]
  rw [if_neg (by push_neg; exact ⟨by linarith, by linarith⟩)]
  rw [max_eq_right hL, max_eq_right hT, min_eq_left hWb, min_eq_left hHb,
    max_eq_right hW, max_eq_right hH,
    if_neg (by push_neg; exact ⟨by linarith, by linarith⟩)]

/-- Witness for C1 at the spec's concrete instance: true original
2000×1000, displayed base 1000×500, UI rectangle (100, 50, 400, 200), no
prior crop; the final rectangle handed to the processing service is
(200, 100, 800, 400). -/
theorem crop_commit_scales_when_uncommitted_witness :
    computeFinalCrop ⟨some 100, some 50, some 400, some 200⟩ ⟨1000, 500⟩ ⟨2000, 1000⟩ none
      = .ok ⟨200, 100, 800, 400⟩ := by
  have h := crop_commit_scales_when_uncommitted 100 50 400 200 ⟨1000, 500⟩ ⟨2000, 1000⟩
    (by norm_num) (by norm_num) (by norm_num) (by norm_num) (by norm_num) (by norm_num)
    (by norm_num) (by norm_num) (by norm_num) (by norm_num)
    (by norm_num [jsRound_def]) (by norm_num [jsRound_def])
    (by norm_num [jsRound_def]) (by norm_num [jsRound_def])
  norm_num [jsRound_def] at h
  exact h

/-- C2: When a crop is already committed, committing a second crop first
scales the UI rectangle per axis by `committedCrop.{width,height} /
baseImageDimensions` into the previous crop's coordinate space and then
translates it by `committedCrop.{left,top}` into true-original space
(rounding to the nearest pixel): for any integer-valued UI rectangle valid
in the displayed base whose composed image stays within the true original
and above `MIN_CROP_SIZE`, `applyCrop`'s final rectangle is exactly the
scale-then-translate composition. The spec's concrete instance is
`crop_commit_composes_when_committed_witness`. -/
theorem crop_commit_composes_when_committed (li ti wi hi : ℤ) (c : CropRegion)
    (base orig : Dimensions)
    (hl : 0 ≤ li) (ht : 0 ≤ ti) (hw : (20 : ℤ) ≤ wi) (hh : (20 : ℤ) ≤ hi)
    (hwb : (li : ℚ) + wi ≤ base.width) (hhb : (ti : ℚ) + hi ≤ base.height)
    (hbw : 0 < base.width) (hbh : 0 < base.height)
    (hcl : 0 ≤ c.left) (hct : 0 ≤ c.top) (hcw : 0 ≤ c.width) (hch : 0 ≤ c.height)
    (hW : (20 : ℚ) ≤ (jsRound ((wi : ℚ) * (c.width / base.width)) : ℚ))
    (hH : (20 : ℚ) ≤ (jsRound ((hi : ℚ) * (c.height / base.height)) : ℚ))
    (hWb : (jsRound ((wi : ℚ) * (c.width / base.width)) : ℚ)
             ≤ orig.width - (jsRound (c.left + (li : ℚ) * (c.width / base.width)) : ℚ))
    (hHb : (jsRound ((hi : ℚ) * (c.height / base.height)) : ℚ)
             ≤ orig.height - (jsRound (c.top + (ti : ℚ) * (c.height / base.height)) : ℚ)) :
    computeFinalCrop ⟨some (li : ℚ), some (ti : ℚ), some (wi : ℚ), some (hi : ℚ)⟩ base orig
        (some c)
      = .ok ⟨(jsRound (c.left + (li : ℚ) * (c.width / base.width)) : ℚ),
             (jsRound (c.top + (ti : ℚ) * (c.height / base.height)) : ℚ),
             (jsRound ((wi : ℚ) * (c.width / base.width)) : ℚ),
             (jsRound ((hi : ℚ) * (c.height / base.height)) : ℚ)⟩ := by
  have hw' : (20 : ℚ) ≤ (wi : ℚ) := by exact_mod_cast hw
  have hh' : (20 : ℚ) ≤ (hi : ℚ) := by exact_mod_cast hh
  have hl' : (0 : ℚ) ≤ (li : ℚ) := by exact_mod_cast hl
  have ht' : (0 : ℚ) ≤ (ti : ℚ) := by exact_mod_cast ht
  have hsx : (0 : ℚ) ≤ c.width / base.width := by positivity
  have hsy : (0 : ℚ) ≤ c.height / base.height := by positivity
  have hL : (0 : ℚ) ≤ (jsRound (c.left + (li : ℚ) * (c.width / base.width)) : ℚ) := by
    exact_mod_cast jsRound_nonneg (by nlinarith [mul_nonneg hl' hsx])
  have hT : (0 : ℚ) ≤ (jsRound (c.top + (ti : ℚ) * (c.height / base.height)) : ℚ) := by
    exact_mod_cast jsRound_nonneg (by nlinarith [mul_nonneg ht' hsy])
  unfold computeFinalCrop
  rw [computeValidatedUiCrop_int li ti wi hi base hl ht hw hh hwb hhb]
  simp only [MIN_CROP_SIZE]
  rw [if_neg (by push_neg; exact ⟨by linarith, by linarith⟩)]
  rw [max_eq_right hL, max_eq_right hT, min_eq_left hWb, min_eq_left hHb,
    max_eq_right hW, max_eq_right hH,
    if_neg (by push_neg; exact ⟨by linarith, by linarith⟩)]

/-- Witness for C2 at the spec's concrete instance: committed crop
(200, 100, 800, 400), displayed base 800×400 (1:1 with the committed
crop), UI rectangle (100, 100, 400, 200), true original 2000×1000; the
composed final rectangle is (300, 200, 400, 200). -/
theorem crop_commit_composes_when_committed_witness :
    computeFinalCrop ⟨some 100, some 100, some 400, some 200⟩ ⟨800, 400⟩ ⟨2000, 1000⟩
        (some ⟨200, 100, 800, 400⟩)
      = .ok ⟨300, 200, 400, 200⟩ := by
  have h := crop_commit_composes_when_committed 100 100 400 200 ⟨200, 100, 800, 400⟩
    ⟨800, 400⟩ ⟨2000, 1000⟩
    (by norm_num) (by norm_num) (by norm_num) (by norm_num) (by norm_num) (by norm_num)
    (by norm_num) (by norm_num) (by norm_num) (by norm_num) (by norm_num) (by norm_num)
    (by norm_num [jsRound_def]) (by norm_num [jsRound_def])
    (by norm_num [jsRound_def]) (by norm_num [jsRound_def])
  norm_num [jsRound_def] at h
  exact h

/-- C6: for every canvas point and wheel delta, `handleWheel` sets the new
zoom level to `clamp(zoom * (1 − deltaY * ZOOM_SENSITIVITY), 0.1, 10)` and
adjusts the pan offset so that the image-space point under the cursor is
unchanged: `toImageSpace(canvasPoint, panBefore, zoomBefore) =
toImageSpace(canvasPoint, panAfter, zoomAfter)`. -/
theorem zoomAt_clamps_and_fixes_cursor (zoomLevel : ℚ) (panOffset mousePos : Coords)
    (deltaY : ℚ) :
    (handleWheel zoomLevel panOffset mousePos deltaY).1
        = max (1/10) (min 10 (zoomLevel * (1 - deltaY * (1/1000)))) ∧
      canvasToImageCoords (handleWheel zoomLevel panOffset mousePos deltaY).2
          (handleWheel zoomLevel panOffset mousePos deltaY).1 mousePos.x mousePos.y
        = canvasToImageCoords panOffset zoomLevel mousePos.x mousePos.y := by
  have hpos : (0 : ℚ)
      < max MIN_ZOOM (min MAX_ZOOM (zoomLevel * (1 - deltaY * ZOOM_SENSITIVITY))) :=
    lt_of_lt_of_le (by norm_num [MIN_ZOOM]) (le_max_left _ _)
  constructor
  · rfl
  · unfold handleWheel canvasToImageCoords
    simp only [Coords.mk.injEq]
    constructor
    · rw [sub_sub_cancel]
      exact mul_div_cancel_right₀ _ (ne_of_gt hpos)
    · rw [sub_sub_cancel]
      exact mul_div_cancel_right₀ _ (ne_of_gt hpos)

/-- The `_executeApiProcessing` never touches the slider values, the committed
crop, crop mode, the UI crop rectangle or the selected file. -/
theorem executeApi_preserves_session (p : EditParams) (effect : ImageEffectType)
    (b : Bool) (o : Outcome) (st : EditorState) :
    (executeApi p effect b o st).sliders = st.sliders ∧
      (executeApi p effect b o st).appliedCropRegionToOriginal
          = st.appliedCropRegionToOriginal ∧
      (executeApi p effect b o st).isCropping = st.isCropping ∧
      (executeApi p effect b o st).uiCropRegion = st.uiCropRegion ∧
      (executeApi p effect b o st).selectedFile = st.selectedFile := by
  unfold executeApi pushHistory
  rcases o with _ | msg <;> by_cases hf : st.selectedFile = false <;>
    simp [hf] <;> split <;> simp

/-- With `shouldAddToHistory = false` (the undo/redo replay flag),
`_executeApiProcessing` neither grows nor re-points the history stack. -/
theorem executeApi_noadd_history (p : EditParams) (effect : ImageEffectType)
    (o : Outcome) (st : EditorState) :
    (executeApi p effect false o st).history = st.history ∧
      (executeApi p effect false o st).currentHistoryIndex = st.currentHistoryIndex := by
  unfold executeApi
  rcases o with _ | msg <;> by_cases hf : st.selectedFile = false <;> simp [hf]

/-- After a push the index points at the new last entry. -/
theorem pushHistory_currentIndex (p : EditParams) (st : EditorState) :
    (pushHistory p st).currentHistoryIndex = ((pushHistory p st).history.length : ℤ) - 1 := by
  unfold pushHistory
  simp

/-- A push never leaves more than `MAX_HISTORY_LENGTH` entries. -/
theorem pushHistory_length_le (p : EditParams) (st : EditorState) :
    (pushHistory p st).history.length ≤ MAX_HISTORY_LENGTH := by
  unfold pushHistory
  simp only []
  split
  · rename_i h
    simp only [List.length_drop]
    omega
  · rename_i h
    omega

/-- A push always leaves a nonempty stack. -/
theorem pushHistory_length_pos (p : EditParams) (st : EditorState) :
    0 < (pushHistory p st).history.length := by
  unfold pushHistory
  simp only []
  split
  · rename_i h
    simp only [List.length_drop]
    simp only [MAX_HISTORY_LENGTH] at h ⊢
    omega
  · simp

/-- From a well-indexed state, a push leaves at least two entries. -/
theorem pushHistory_length_ge_two (p : EditParams) (st : EditorState)
    (h1 : 0 ≤ st.currentHistoryIndex) (h2 : st.currentHistoryIndex < (st.history.length : ℤ)) :
    2 ≤ (pushHistory p st).history.length := by
  unfold pushHistory
  simp only []
  split
  · rename_i h
    simp only [List.length_drop]
    simp only [MAX_HISTORY_LENGTH, List.length_append, List.length_take,
      List.length_cons, List.length_nil] at h ⊢
    omega
  · rename_i h
    simp only [List.length_append, List.length_take, List.length_cons, List.length_nil] at h ⊢
    omega

/-- The last element of `l ++ [e]` survives dropping `k ≤ l.length` front
elements. -/
theorem getD_last_concat_drop (l : List HistoryEntry) (e : HistoryEntry) (k : Nat)
    (hk : k ≤ l.length) :
    (List.drop k (l ++ [e])).getD ((List.drop k (l ++ [e])).length - 1) defaultHistoryEntry
      = e := by
  have hlen : (List.drop k (l ++ [e])).length = l.length + 1 - k := by
    simp [List.length_drop]
  rw [hlen, List.getD_eq_getElem?_getD, List.getElem?_drop]
  have hidx : k + (l.length + 1 - k - 1) = l.length := by omega
  rw [hidx]
  rw [show (l ++ [e])[l.length]? = some e from by
    simpa using List.getElem?_concat_length l e]
  rfl

/-- The entry at the post-push index is exactly the entry just pushed. -/
theorem pushHistory_getD_last (p : EditParams) (st : EditorState) :
    (pushHistory p st).history.getD ((pushHistory p st).history.length - 1)
        defaultHistoryEntry = mkHistoryEntry p st := by
  unfold pushHistory
  simp only []
  split
  · rename_i h
    apply getD_last_concat_drop
    simp only [MAX_HISTORY_LENGTH, List.length_append, List.length_take,
      List.length_cons, List.length_nil] at h ⊢
    omega
  · simpa using
      getD_last_concat_drop (st.history.take (st.currentHistoryIndex + 1).toNat)
        (mkHistoryEntry p st) 0 (Nat.zero_le _)

/-- The `undo` in the movable case: restore the previous entry, decrement the
index, and issue the replay request with `shouldAddToHistory = false`. -/
theorem undo_spec (st : EditorState) (h : 0 < st.currentHistoryIndex) :
    undo st =
      ({ applyStateFromHistory
           (st.history.getD (st.currentHistoryIndex - 1).toNat defaultHistoryEntry).params st
           with currentHistoryIndex := st.currentHistoryIndex - 1 },
       some ⟨(st.history.getD (st.currentHistoryIndex - 1).toNat defaultHistoryEntry).params,
             .applyAll, false⟩) := by
  unfold undo
  rw [if_pos h]

/-- The `redo` in the movable case. -/
theorem redo_spec (st : EditorState) (h : st.currentHistoryIndex < (st.history.length : ℤ) - 1) :
    redo st =
      ({ applyStateFromHistory
           (st.history.getD (st.currentHistoryIndex + 1).toNat defaultHistoryEntry).params st
           with currentHistoryIndex := st.currentHistoryIndex + 1 },
       some ⟨(st.history.getD (st.currentHistoryIndex + 1).toNat defaultHistoryEntry).params,
             .applyAll, false⟩) := by
  unfold redo
  rw [if_pos h]

/-- The `undo` (with its replay completion) never changes the history stack. -/
theorem undoRun_history (o : Outcome) (st : EditorState) :
    (undoRun o st).history = st.history := by
  unfold undoRun
  by_cases h : 0 < st.currentHistoryIndex
  · rw [undo_spec st h]
    simp [(executeApi_noadd_history _ _ o _).1, applyStateFromHistory]
  · unfold undo
    rw [if_neg h]

/-- The `redo` (with its replay completion) never changes the history stack. -/
theorem redoRun_history (o : Outcome) (st : EditorState) :
    (redoRun o st).history = st.history := by
  unfold redoRun
  by_cases h : st.currentHistoryIndex < (st.history.length : ℤ) - 1
  · rw [redo_spec st h]
    simp [(executeApi_noadd_history _ _ o _).1, applyStateFromHistory]
  · unfold redo
    rw [if_neg h]

/-- The index after `undo` (with its replay completion). -/
theorem undoRun_currentIndex (o : Outcome) (st : EditorState) :
    (undoRun o st).currentHistoryIndex =
      if 0 < st.currentHistoryIndex then st.currentHistoryIndex - 1
      else st.currentHistoryIndex := by
  unfold undoRun
  by_cases h : 0 < st.currentHistoryIndex
  · rw [undo_spec st h, if_pos h]
    simp [(executeApi_noadd_history _ _ o _).2, applyStateFromHistory]
  · unfold undo
    rw [if_neg h, if_neg h]

/-- The index after `redo` (with its replay completion). -/
theorem redoRun_currentIndex (o : Outcome) (st : EditorState) :
    (redoRun o st).currentHistoryIndex =
      if st.currentHistoryIndex < (st.history.length : ℤ) - 1 then st.currentHistoryIndex + 1
      else st.currentHistoryIndex := by
  unfold redoRun
  by_cases h : st.currentHistoryIndex < (st.history.length : ℤ) - 1
  · rw [redo_spec st h, if_pos h]
    simp [(executeApi_noadd_history _ _ o _).2, applyStateFromHistory]
  · unfold redo
    rw [if_neg h, if_neg h]

/-- C3: from any well-indexed history state, a push followed by `undo` then
`redo` restores exactly the pushed params (value equality of sliders and
crop), leaves the stack and index exactly as immediately after the push,
and both replay requests are issued with `shouldAddToHistory = false`. -/
theorem push_undo_redo_roundtrip (st : EditorState) (p : EditParams) (o1 o2 : Outcome)
    (h1 : 0 ≤ st.currentHistoryIndex)
    (h2 : st.currentHistoryIndex < (st.history.length : ℤ)) :
    (redoRun o2 (undoRun o1 (pushHistory p st))).history = (pushHistory p st).history ∧
      (redoRun o2 (undoRun o1 (pushHistory p st))).currentHistoryIndex
          = (pushHistory p st).currentHistoryIndex ∧
      (redoRun o2 (undoRun o1 (pushHistory p st))).sliders = p.sliders ∧
      (redoRun o2 (undoRun o1 (pushHistory p st))).appliedCropRegionToOriginal = p.crop ∧
      (undo (pushHistory p st)).2.map ApiRequest.addToHistory = some false ∧
      (redo (undoRun o1 (pushHistory p st))).2.map ApiRequest.addToHistory = some false := by
  set st1 := pushHistory p st with hst1
  have hlen2 : 2 ≤ st1.history.length := pushHistory_length_ge_two p st h1 h2
  have hidx1 : st1.currentHistoryIndex = (st1.history.length : ℤ) - 1 :=
    pushHistory_currentIndex p st
  have hpos : 0 < st1.currentHistoryIndex := by omega
  have hist2 : (undoRun o1 st1).history = st1.history := undoRun_history o1 st1
  have idx2 : (undoRun o1 st1).currentHistoryIndex = st1.currentHistoryIndex - 1 := by
    rw [undoRun_currentIndex, if_pos hpos]
  have hred_cond : (undoRun o1 st1).currentHistoryIndex
      < ((undoRun o1 st1).history.length : ℤ) - 1 := by
    rw [idx2, hist2]
    omega
  have hr := redo_spec (undoRun o1 st1) hred_cond
  have hentry : (undoRun o1 st1).history.getD
      ((undoRun o1 st1).currentHistoryIndex + 1).toNat defaultHistoryEntry
        = mkHistoryEntry p st := by
    rw [hist2, idx2, hidx1]
    have hcast : ((st1.history.length : ℤ) - 1 - 1 + 1).toNat = st1.history.length - 1 := by
      omega
    rw [hcast]
    exact pushHistory_getD_last p st
  refine ⟨?_, ?_, ?_, ?_, ?_, ?_⟩
  · rw [redoRun_history, hist2]
  · rw [redoRun_currentIndex, if_pos hred_cond, idx2, hidx1]
    omega
  · unfold redoRun
    rw [hr]
    simp only []
    rw [(executeApi_preserves_session _ _ _ o2 _).1]
    simp only [applyStateFromHistory, hentry, mkHistoryEntry]
  · unfold redoRun
    rw [hr]
    simp only []
    rw [(executeApi_preserves_session _ _ _ o2 _).2.1]
    simp only [applyStateFromHistory, hentry, mkHistoryEntry]
  · rw [undo_spec st1 hpos]
    rfl
  · rw [hr]
    rfl

/-- Witness for C3 at a concrete loaded session: one prior history entry,
index 0; pushing, undoing and redoing restores the pushed params and the
post-push stack shape, with both replays flagged `shouldAddToHistory =
false`. -/
theorem push_undo_redo_roundtrip_witness :
    (0 ≤ rtState.currentHistoryIndex ∧
        rtState.currentHistoryIndex < (rtState.history.length : ℤ)) ∧
      ((redoRun .success (undoRun .success (pushHistory rtParams rtState))).history
            = (pushHistory rtParams rtState).history ∧
        (redoRun .success (undoRun .success (pushHistory rtParams rtState))).currentHistoryIndex
            = (pushHistory rtParams rtState).currentHistoryIndex ∧
        (redoRun .success (undoRun .success (pushHistory rtParams rtState))).sliders
            = rtParams.sliders ∧
        (redoRun .success
              (undoRun .success (pushHistory rtParams rtState))).appliedCropRegionToOriginal
            = rtParams.crop ∧
        (undo (pushHistory rtParams rtState)).2.map ApiRequest.addToHistory = some false ∧
        (redo (undoRun .success (pushHistory rtParams rtState))).2.map ApiRequest.addToHistory
            = some false) :=
  ⟨⟨by decide, by decide⟩,
   push_undo_redo_roundtrip rtState rtParams .success .success (by decide) (by decide)⟩

/-- A push always yields a well-formed history stack. -/
theorem histWf_pushHistory (p : EditParams) (st : EditorState) : HistWf (pushHistory p st) := by
  refine ⟨pushHistory_length_le p st, ?_, ?_⟩
  · intro h
    have := pushHistory_length_pos p st
    omega
  · intro _
    have hpos := pushHistory_length_pos p st
    have hidx := pushHistory_currentIndex p st
    omega

/-- The `undo` (with its replay completion) preserves history well-formedness. -/
theorem histWf_undoRun (o : Outcome) (st : EditorState) (hwf : HistWf st) :
    HistWf (undoRun o st) := by
  obtain ⟨hle, hemp, hrng⟩ := hwf
  refine ⟨?_, ?_, ?_⟩
  · rw [undoRun_history]
    exact hle
  · rw [undoRun_history, undoRun_currentIndex]
    intro h
    have := hemp h
    split <;> omega
  · rw [undoRun_history, undoRun_currentIndex]
    intro h
    have := hrng h
    split <;> omega

/-- The `redo` (with its replay completion) preserves history well-formedness. -/
theorem histWf_redoRun (o : Outcome) (st : EditorState) (hwf : HistWf st) :
    HistWf (redoRun o st) := by
  obtain ⟨hle, hemp, hrng⟩ := hwf
  refine ⟨?_, ?_, ?_⟩
  · rw [redoRun_history]
    exact hle
  · rw [redoRun_history, redoRun_currentIndex]
    intro h
    have := hemp h
    split <;> omega
  · rw [redoRun_history, redoRun_currentIndex]
    intro h
    have := hrng h
    split <;> omega

/-- Well-formedness of the history stack is preserved by every sequence of
pushes, undos and redos. -/
theorem runHistSteps_wf (steps : List HistStep) (st : EditorState) (hwf : HistWf st) :
    HistWf (runHistSteps steps st) := by
  induction steps generalizing st with
  | nil => exact hwf
  | cons s rest ih =>
    cases s with
    | push p => exact ih _ (histWf_pushHistory p st)
    | undoStep o => exact ih _ (histWf_undoRun o st hwf)
    | redoStep o => exact ih _ (histWf_redoRun o st hwf)

/-- C4: for every sequence of pushes, undos and redos from a well-formed
state, the history length never exceeds `MAX_HISTORY_LENGTH` and the index
stays inside the stack whenever it is non-empty (the `HistWf` invariant,
which holds at every intermediate state since any prefix of `steps` is
itself such a sequence); and immediately after every push — including an
evicting one — the index equals length − 1 on a non-empty, bounded stack. -/
theorem history_bounded_and_indexed (steps : List HistStep) (st : EditorState)
    (p : EditParams) (st' : EditorState) (hwf : HistWf st) :
    HistWf (runHistSteps steps st) ∧
      (pushHistory p st').currentHistoryIndex = ((pushHistory p st').history.length : ℤ) - 1 ∧
      0 < (pushHistory p st').history.length ∧
      (pushHistory p st').history.length ≤ MAX_HISTORY_LENGTH :=
  ⟨runHistSteps_wf steps st hwf, pushHistory_currentIndex p st',
   pushHistory_length_pos p st', pushHistory_length_le p st'⟩

/-- Witness for C4 on a concrete loaded session and step sequence. -/
theorem history_bounded_and_indexed_witness :
    HistWf invState ∧
      (HistWf (runHistSteps invSteps invState) ∧
        (pushHistory ⟨⟨2, 0, 0, 0, 1, 0, 0⟩, none, none, none⟩ invState).currentHistoryIndex
            = ((pushHistory ⟨⟨2, 0, 0, 0, 1, 0, 0⟩, none, none, none⟩
                  invState).history.length : ℤ) - 1 ∧
        0 < (pushHistory ⟨⟨2, 0, 0, 0, 1, 0, 0⟩, none, none, none⟩ invState).history.length ∧
        (pushHistory ⟨⟨2, 0, 0, 0, 1, 0, 0⟩, none, none, none⟩ invState).history.length
            ≤ MAX_HISTORY_LENGTH) :=
  ⟨by decide,
   history_bounded_and_indexed invSteps invState
     ⟨⟨2, 0, 0, 0, 1, 0, 0⟩, none, none, none⟩ invState (by decide)⟩

/-- C10: every `undo` or `redo` call that actually moves the history index
forcibly exits an in-progress crop session: afterwards `isCropping` is
false and `uiCropRegion` is null, whatever the crop-mode state was before
and however the replay round-trip completes. -/
theorem undo_redo_exit_crop_mode (st : EditorState) (o : Outcome) :
    (0 < st.currentHistoryIndex →
        (undoRun o st).isCropping = false ∧ (undoRun o st).uiCropRegion = none) ∧
      (st.currentHistoryIndex < (st.history.length : ℤ) - 1 →
        (redoRun o st).isCropping = false ∧ (redoRun o st).uiCropRegion = none) := by
  constructor
  · intro h
    unfold undoRun
    rw [undo_spec st h]
    simp only []
    rw [(executeApi_preserves_session _ _ _ o _).2.2.1,
      (executeApi_preserves_session _ _ _ o _).2.2.2.1]
    simp [applyStateFromHistory]
  · intro h
    unfold redoRun
    rw [redo_spec st h]
    simp only []
    rw [(executeApi_preserves_session _ _ _ o _).2.2.1,
      (executeApi_preserves_session _ _ _ o _).2.2.2.1]
    simp [applyStateFromHistory]

/-- Witness for C10 at a concrete mid-crop state where both `undo` and
`redo` can move the index. -/
theorem undo_redo_exit_crop_mode_witness :
    (0 < midCropState.currentHistoryIndex ∧
        midCropState.currentHistoryIndex < (midCropState.history.length : ℤ) - 1) ∧
      ((undoRun .success midCropState).isCropping = false ∧
        (undoRun .success midCropState).uiCropRegion = none) ∧
      ((redoRun .success midCropState).isCropping = false ∧
        (redoRun .success midCropState).uiCropRegion = none) :=
  ⟨⟨by decide, by decide⟩,
   (undo_redo_exit_crop_mode midCropState .success).1 (by decide),
   (undo_redo_exit_crop_mode midCropState .success).2 (by decide)⟩

/-- From a well-indexed state, the post-push length is
`min (index + 2) MAX_HISTORY_LENGTH`: exactly one entry more than the
truncated stack, minus evictions. -/
theorem pushHistory_length_eq (p : EditParams) (st : EditorState)
    (h1 : 0 ≤ st.currentHistoryIndex)
    (h2 : st.currentHistoryIndex < (st.history.length : ℤ)) :
    (pushHistory p st).history.length
      = min (st.currentHistoryIndex.toNat + 2) MAX_HISTORY_LENGTH := by
  unfold pushHistory
  simp only []
  split
  · rename_i h
    simp only [List.length_drop, List.length_append, List.length_take, List.length_cons,
      List.length_nil, MAX_HISTORY_LENGTH] at h ⊢
    omega
  · rename_i h
    simp only [List.length_append, List.length_take, List.length_cons, List.length_nil,
      MAX_HISTORY_LENGTH] at h ⊢
    omega

/-- While every gap between consecutive calls is below the debounce delay,
the pending timer is repeatedly reset and never fires: after the whole
series it is scheduled at `lastCall + waitFor` and the function has not
run. -/
theorem debounceRun_pending (waitFor t : ℚ) (rest : List ℚ) (c : Nat)
    (hchain : List.Chain' (fun a b => b - a < waitFor) (t :: rest)) :
    debounceRun waitFor rest ⟨some (t + waitFor), c⟩
      = ⟨some (lastCallTime t rest + waitFor), c⟩ := by
  induction rest generalizing t with
  | nil => simp [debounceRun, lastCallTime]
  | cons u rest ih =>
    have hg : u - t < waitFor := (List.chain'_cons.mp hchain).1
    have htail : List.Chain' (fun a b => b - a < waitFor) (u :: rest) :=
      (List.chain'_cons.mp hchain).2
    unfold debounceRun
    rw [show debounceAdvance u ⟨some (t + waitFor), c⟩ = ⟨some (t + waitFor), c⟩ from by
      unfold debounceAdvance
      simp only []
      rw [if_neg (by linarith)]]
    rw [show debounceCall waitFor u ⟨some (t + waitFor), c⟩ = ⟨some (u + waitFor), c⟩ from rfl]
    rw [ih u htail]
    simp [lastCallTime]

/-- C5: for any series of slider changes with less than `DEBOUNCE_DELAY`
between consecutive changes, once the delay elapses after the last change
the debounced trigger fires exactly once (each change resets the pending
timer); a fire outside crop mode with a file loaded issues exactly one
`'applyAll'` request with `shouldAddToHistory = true`, whose success
appends exactly one entry — the debounced snapshot — re-pointing the index
at it; and the fire is suppressed entirely (no request, state unchanged)
while `isCropping` is true or no file is loaded. -/
theorem slider_debounce_fires_once (t : ℚ) (rest : List ℚ) (st : EditorState) (o : Outcome)
    (h1 : 0 ≤ st.currentHistoryIndex)
    (h2 : st.currentHistoryIndex < (st.history.length : ℤ))
    (hchain : List.Chain' (fun a b => b - a < DEBOUNCE_DELAY) (t :: rest)) :
    (debounceAdvance (lastCallTime t rest + DEBOUNCE_DELAY)
          (debounceRun DEBOUNCE_DELAY (t :: rest) ⟨none, 0⟩)).fireCount = 1 ∧
      (debounceAdvance (lastCallTime t rest + DEBOUNCE_DELAY)
          (debounceRun DEBOUNCE_DELAY (t :: rest) ⟨none, 0⟩)).pendingAt = none ∧
      (st.isCropping = false → st.selectedFile = true →
        sliderSettleFire st = some ⟨paramsSnapshot st, .applyAll, true⟩ ∧
          (sliderSettleRun .success st).history.length
              = min (st.currentHistoryIndex.toNat + 2) MAX_HISTORY_LENGTH ∧
          (sliderSettleRun .success st).currentHistoryIndex
              = ((sliderSettleRun .success st).history.length : ℤ) - 1 ∧
          ((sliderSettleRun .success st).history.getD
              ((sliderSettleRun .success st).history.length - 1) defaultHistoryEntry).params
            = paramsSnapshot st) ∧
      (st.isCropping = true ∨ st.selectedFile = false →
        sliderSettleFire st = none ∧ sliderSettleRun o st = st) := by
  have hrun : debounceRun DEBOUNCE_DELAY (t :: rest) ⟨none, 0⟩
      = ⟨some (lastCallTime t rest + DEBOUNCE_DELAY), 0⟩ := by
    unfold debounceRun
    rw [show debounceCall DEBOUNCE_DELAY t (debounceAdvance t ⟨none, 0⟩)
        = ⟨some (t + DEBOUNCE_DELAY), 0⟩ from rfl]
    exact debounceRun_pending DEBOUNCE_DELAY t rest 0 hchain
  refine ⟨?_, ?_, ?_, ?_⟩
  · rw [hrun]
    unfold debounceAdvance
    simp
  · rw [hrun]
    unfold debounceAdvance
    simp
  · intro hcrop hfile
    have hfire : sliderSettleFire st = some ⟨paramsSnapshot st, .applyAll, true⟩ := by
      unfold sliderSettleFire
      rw [if_neg (by simp [hcrop, hfile])]
    have hrun2 : sliderSettleRun .success st
        = pushHistory (paramsSnapshot st)
            { st with
                isLoading := false
                error := none
                currentBaseImageDimensions :=
                  newBaseDimsAfter (paramsSnapshot st) .applyAll
                    { st with isLoading := true, error := none } } := by
      unfold sliderSettleRun
      rw [hfire]
      simp only []
      unfold executeApi
      rw [if_neg (by simp [hfile])]
      rfl
    refine ⟨hfire, ?_, ?_, ?_⟩
    · rw [hrun2, pushHistory_length_eq]
      · exact h1
      · exact h2
    · rw [hrun2]
      exact pushHistory_currentIndex _ _
    · rw [hrun2]
      rw [show ∀ q st2, ((pushHistory q st2).history.getD
            ((pushHistory q st2).history.length - 1) defaultHistoryEntry).params = q from
          fun q st2 => by rw [pushHistory_getD_last]; rfl]
  · intro hsupp
    have hfire : sliderSettleFire st = none := by
      unfold sliderSettleFire
      rw [if_pos (by rcases hsupp with h | h <;> simp [h])]
    exact ⟨hfire, by unfold sliderSettleRun; rw [hfire]⟩

/-- Witness for C5: three slider changes at t = 0, 100, 300 ms (gaps below
the 500 ms delay) fire the debounced trigger exactly once, at 300 + 500 ms,
on the concrete loaded session. -/
theorem slider_debounce_fires_once_witness :
    (0 ≤ settleState.currentHistoryIndex ∧
        settleState.currentHistoryIndex < (settleState.history.length : ℤ) ∧
        List.Chain' (fun a b => b - a < DEBOUNCE_DELAY) [(0 : ℚ), 100, 300]) ∧
      ((debounceAdvance (lastCallTime 0 [100, 300] + DEBOUNCE_DELAY)
            (debounceRun DEBOUNCE_DELAY [(0 : ℚ), 100, 300] ⟨none, 0⟩)).fireCount = 1 ∧
        (debounceAdvance (lastCallTime 0 [100, 300] + DEBOUNCE_DELAY)
            (debounceRun DEBOUNCE_DELAY [(0 : ℚ), 100, 300] ⟨none, 0⟩)).pendingAt = none ∧
        (settleState.isCropping = false → settleState.selectedFile = true →
          sliderSettleFire settleState
              = some ⟨paramsSnapshot settleState, .applyAll, true⟩ ∧
            (sliderSettleRun .success settleState).history.length
                = min (settleState.currentHistoryIndex.toNat + 2) MAX_HISTORY_LENGTH ∧
            (sliderSettleRun .success settleState).currentHistoryIndex
                = ((sliderSettleRun .success settleState).history.length : ℤ) - 1 ∧
            ((sliderSettleRun .success settleState).history.getD
                ((sliderSettleRun .success settleState).history.length - 1)
                defaultHistoryEntry).params
              = paramsSnapshot settleState) ∧
        (settleState.isCropping = true ∨ settleState.selectedFile = false →
          sliderSettleFire settleState = none ∧
            sliderSettleRun .success settleState = settleState)) :=
  ⟨⟨by decide, by decide, by norm_num [List.chain'_cons, List.chain'_singleton, DEBOUNCE_DELAY]⟩,
   slider_debounce_fires_once 0 [100, 300] settleState .success (by decide) (by decide)
     (by norm_num [List.chain'_cons, List.chain'_singleton, DEBOUNCE_DELAY])⟩

/-- Counterexample to C7 as stated: a crop commit whose request fails with
a network error does NOT leave the editing session unchanged — the
committed crop has been replaced by the attempted rectangle (and crop mode
has been exited), even though the server never applied the crop. The
history stack, sliders and the error/loading handling do behave as
claimed. -/
theorem failed_crop_request_mutates_session :
    (applyCropRun (.failure ("network error")) c7State).1.appliedCropRegionToOriginal
        = some ⟨200, 100, 800, 400⟩ ∧
      c7State.appliedCropRegionToOriginal = none ∧
      (applyCropRun (.failure ("network error")) c7State).1.error = some ("network error") ∧
      (applyCropRun (.failure ("network error")) c7State).1.isLoading = false ∧
      (applyCropRun (.failure ("network error")) c7State).1.history = c7State.history := by
  have hc : computeFinalCrop ⟨some 100, some 50, some 400, some 200⟩ ⟨1000, 500⟩
      ⟨2000, 1000⟩ none = .ok ⟨200, 100, 800, 400⟩ := by
    norm_num [computeFinalCrop, computeValidatedUiCrop, jsRound_def, MIN_CROP_SIZE,
      max_def, min_def]
  simp only [applyCropRun, c7State]
  rw [hc]
  simp [executeApi, paramsSnapshot]

/-- C7 (amended): when a commit's processing request fails, the failure
handler itself only records the error message and clears the loading flag —
history, sliders, committed crop and base dimensions are exactly as at
issuance (first conjunct, covering slider settles, named effects and
undo/redo replays, all of which complete through `_executeApiProcessing`).
A failed crop commit, however, does not roll back the state changes made
before issuance: the committed crop remains the attempted rectangle and
crop mode is exited (second conjunct). -/
theorem service_failure_effects (p : EditParams) (effect : ImageEffectType) (b : Bool)
    (msg : String) (st stc : EditorState) (ui : PartialCropRegion) (base orig : Dimensions)
    (r : CropRegion)
    (hf : st.selectedFile = true)
    (hui : stc.uiCropRegion = some ui)
    (hbase : stc.currentBaseImageDimensions = some base)
    (horig : stc.trueOriginalImageDimensions = some orig)
    (hfc : stc.selectedFile = true)
    (hok : computeFinalCrop ui base orig stc.appliedCropRegionToOriginal = .ok r) :
    executeApi p effect b (.failure msg) st
        = { st with error := some msg, isLoading := false } ∧
      applyCropRun (.failure msg) stc
        = ({ stc with
               appliedCropRegionToOriginal := some r
               error := some msg
               isLoading := false
               isCropping := false
               uiCropRegion := none },
           some ⟨{ paramsSnapshot stc with crop := some r }, .crop, true⟩) := by
  constructor
  · unfold executeApi
    rw [if_neg (by simp [hf])]
  · unfold applyCropRun
    rw [hui, hbase, horig]
    simp only []
    rw [if_neg (by simp [hfc]), hok]
    simp only []
    unfold executeApi
    rw [if_neg (by simp [hfc])]

/-- Witness for the amended C7 at the concrete mid-crop session: the
failing request leaves only error/loading changed for a plain commit, and
the failed crop commit keeps the pre-committed rectangle. -/
theorem service_failure_effects_witness :
    (c7State.selectedFile = true ∧
        c7State.uiCropRegion = some ⟨some 100, some 50, some 400, some 200⟩ ∧
        c7State.currentBaseImageDimensions = some ⟨1000, 500⟩ ∧
        c7State.trueOriginalImageDimensions = some ⟨2000, 1000⟩ ∧
        computeFinalCrop ⟨some 100, some 50, some 400, some 200⟩ ⟨1000, 500⟩ ⟨2000, 1000⟩
            c7State.appliedCropRegionToOriginal = .ok ⟨200, 100, 800, 400⟩) ∧
      (executeApi ⟨defaultSliders, none, none, none⟩ .applyAll true (.failure ("boom")) c7State
          = { c7State with error := some ("boom"), isLoading := false } ∧
        applyCropRun (.failure ("boom")) c7State
          = ({ c7State with
                 appliedCropRegionToOriginal := some ⟨200, 100, 800, 400⟩
                 error := some ("boom")
                 isLoading := false
                 isCropping := false
                 uiCropRegion := none },
             some ⟨{ paramsSnapshot c7State with crop := some ⟨200, 100, 800, 400⟩ },
                   .crop, true⟩)) :=
  ⟨⟨by decide, by decide, by decide, by decide,
    by norm_num [computeFinalCrop, computeValidatedUiCrop, jsRound_def, MIN_CROP_SIZE,
      max_def, min_def, c7State]⟩,
   service_failure_effects ⟨defaultSliders, none, none, none⟩ .applyAll true ("boom") c7State
     c7State ⟨some 100, some 50, some 400, some 200⟩ ⟨1000, 500⟩ ⟨2000, 1000⟩
     ⟨200, 100, 800, 400⟩ (by decide) (by decide) (by decide) (by decide) (by decide)
     (by norm_num [computeFinalCrop, computeValidatedUiCrop, jsRound_def, MIN_CROP_SIZE,
       max_def, min_def, c7State])⟩

/-- C8: a crop commit whose rectangle degenerates below `MIN_CROP_SIZE`
after clamping fails with the store's validation error: the error message
is set, no request is sent, and nothing else — in particular the history
stack and the committed crop — changes (first conjunct). The only
reachable degenerate check is the validated-UI-rectangle one: the final
true-original clamp forces both sides up to at least `MIN_CROP_SIZE`, so
every rectangle that is actually sent satisfies the minimum (second
conjunct). -/
theorem degenerate_crop_fails_validation (st : EditorState) (ui : PartialCropRegion)
    (base orig : Dimensions) (o : Outcome)
    (ui2 : PartialCropRegion) (base2 orig2 : Dimensions) (ap2 : Option CropRegion)
    (r2 : CropRegion)
    (hui : st.uiCropRegion = some ui)
    (hbase : st.currentBaseImageDimensions = some base)
    (horig : st.trueOriginalImageDimensions = some orig)
    (hf : st.selectedFile = true)
    (hdeg : (computeValidatedUiCrop ui base).width < MIN_CROP_SIZE ∨
        (computeValidatedUiCrop ui base).height < MIN_CROP_SIZE)
    (hok2 : computeFinalCrop ui2 base2 orig2 ap2 = .ok r2) :
    applyCropRun o st = ({ st with error := some uiCropTooSmallMsg }, none) ∧
      MIN_CROP_SIZE ≤ r2.width ∧ MIN_CROP_SIZE ≤ r2.height := by
  refine ⟨?_, ?_⟩
  · unfold applyCropRun
    rw [hui, hbase, horig]
    simp only []
    rw [if_neg (by simp [hf])]
    rw [show computeFinalCrop ui base orig st.appliedCropRegionToOriginal
        = .error uiCropTooSmallMsg from by
      unfold computeFinalCrop
      rw [if_pos hdeg]]
  · unfold computeFinalCrop at hok2
    simp only [] at hok2
    split at hok2
    · exact absurd hok2 (by simp)
    · split at hok2
      · exact absurd hok2 (by simp)
      · injection hok2 with h
        subst h
        exact ⟨le_max_left _ _, le_max_left _ _⟩

/-- Witness for C8: the degenerate commit on `degenState` only sets the
validation message and sends nothing, and a successfully computed final
rectangle (the C1 example data) is at least `MIN_CROP_SIZE` on both axes. -/
theorem degenerate_crop_fails_validation_witness :
    (degenState.uiCropRegion = some ⟨some 990, some 0, some 100, some 100⟩ ∧
        degenState.currentBaseImageDimensions = some ⟨1000, 500⟩ ∧
        degenState.trueOriginalImageDimensions = some ⟨2000, 1000⟩ ∧
        degenState.selectedFile = true ∧
        ((computeValidatedUiCrop ⟨some 990, some 0, some 100, some 100⟩
              ⟨1000, 500⟩).width < MIN_CROP_SIZE ∨
          (computeValidatedUiCrop ⟨some 990, some 0, some 100, some 100⟩
              ⟨1000, 500⟩).height < MIN_CROP_SIZE) ∧
        computeFinalCrop ⟨some 100, some 50, some 400, some 200⟩ ⟨1000, 500⟩ ⟨2000, 1000⟩
            none = .ok ⟨200, 100, 800, 400⟩) ∧
      (applyCropRun .success degenState
          = ({ degenState with error := some uiCropTooSmallMsg }, none) ∧
        MIN_CROP_SIZE ≤ (⟨200, 100, 800, 400⟩ : CropRegion).width ∧
        MIN_CROP_SIZE ≤ (⟨200, 100, 800, 400⟩ : CropRegion).height) :=
  ⟨⟨by decide, by decide, by decide, by decide,
    by norm_num [computeValidatedUiCrop, jsRound_def, MIN_CROP_SIZE, max_def, min_def],
    by norm_num [computeFinalCrop, computeValidatedUiCrop, jsRound_def, MIN_CROP_SIZE,
      max_def, min_def]⟩,
   degenerate_crop_fails_validation degenState ⟨some 990, some 0, some 100, some 100⟩
     ⟨1000, 500⟩ ⟨2000, 1000⟩ .success ⟨some 100, some 50, some 400, some 200⟩
     ⟨1000, 500⟩ ⟨2000, 1000⟩ none ⟨200, 100, 800, 400⟩
     (by decide) (by decide) (by decide) (by decide)
     (by norm_num [computeValidatedUiCrop, jsRound_def, MIN_CROP_SIZE, max_def, min_def])
     (by norm_num [computeFinalCrop, computeValidatedUiCrop, jsRound_def, MIN_CROP_SIZE,
       max_def, min_def])⟩

/-- C9, evaluated at the failing input: `applyNamedEffect('grayscale')`
does include the committed crop in the request parameters (first
conjunct), but the processing route's crop stage is gated on
`effect ∈ {crop, applyAll}`, so for `grayscale` the crop is never applied
and the response keeps the full 2000×1000 input dimensions instead of the
crop's 800×400 (second and third conjuncts) — while the same parameters
under `applyAll` do get cropped to 800×400 (fourth and fifth conjuncts),
and the client-side store nonetheless records the crop's dimensions as the
new base after a successful grayscale round-trip (sixth conjunct),
contradicting its own `currentBaseImageDimensions` bookkeeping. -/
theorem grayscale_request_keeps_crop_but_route_ignores_it :
    (applyNamedEffectRequest .grayscale none c9State).params.crop
        = some ⟨100, 50, 800, 400⟩ ∧
      ¬ routeCropTaken .grayscale (applyNamedEffectRequest .grayscale none c9State).params
          ⟨2000, 1000⟩ ∧
      routeOutputDims .grayscale (applyNamedEffectRequest .grayscale none c9State).params
          ⟨2000, 1000⟩ = ⟨2000, 1000⟩ ∧
      routeCropTaken .applyAll (applyNamedEffectRequest .grayscale none c9State).params
          ⟨2000, 1000⟩ ∧
      routeOutputDims .applyAll (applyNamedEffectRequest .grayscale none c9State).params
          ⟨2000, 1000⟩ = ⟨800, 400⟩ ∧
      (executeApi (applyNamedEffectRequest .grayscale none c9State).params .grayscale true
          .success c9State).currentBaseImageDimensions = some ⟨800, 400⟩ := by
  have hnot : ¬ routeCropTaken .grayscale
      (applyNamedEffectRequest .grayscale none c9State).params ⟨2000, 1000⟩ := by
    simp [routeCropTaken]
  have htaken : routeCropTaken .applyAll
      (applyNamedEffectRequest .grayscale none c9State).params ⟨2000, 1000⟩ := by
    refine ⟨Or.inr rfl, ?_⟩
    simp only [applyNamedEffectRequest, paramsSnapshot, c9State]
    norm_num
  refine ⟨rfl, hnot, ?_, htaken, ?_, ?_⟩
  · unfold routeOutputDims
    rw [if_neg hnot]
  · unfold routeOutputDims
    rw [if_pos htaken]
    rfl
  · decide
